import Mathlib

/-!
Verification of the naucse core against its specification.

The definitions below are shallow embeddings of the corresponding Python
functions in the repository (`naucse/compiled_renderer.py`,
`naucse/datetimes.py`, `naucse/models.py`).  Machine-level details that the
claims do not touch (actual git subprocesses, the HTML sanitizer, the JSON
schema engine) are abstracted as explicit parameters, while every branch of
the translated control flow follows the Python source.
-/

namespace Naucse

/-! ## Identifier encoder (`naucse/compiled_renderer.py`, `git_identifer`) -/

/-- Test of the Python regex class `[a-z0-9]` on a single character
(the complement `[^a-z0-9]` is what `git_identifer` substitutes). -/
def isLowerDigit (c : Char) : Bool :=
  (('a' ≤ c) && (c ≤ 'z')) || (('0' ≤ c) && (c ≤ '9'))

/-- The `replacement` closure inside `git_identifer`.  Special characters map
to two-letter tokens; every other character falls into the width dispatch.
Note that in the source the three width branches return the *literal* strings
`-c{num:02x}`, `-u{num:04x}` and `-v{num:016x}`: the format strings are not
f-strings, so `num` is never interpolated.  The embedding reproduces those
literal results (the braces are written as `\x7b`/`\x7d`).  The final
`ValueError('char to big')` branch guards code points of at least `2^32` and
is unreachable (code points end at `0x10FFFF`), so the last branch here is
the `2^32` width branch. -/
def gitIdentReplacement (c : Char) : String :=
  if c = ':' then "-m"
  else if c = '.' then "-p"
  else if c = '/' then "-s"
  else if c = '-' then "-d"
  else if c = '_' then "-r"
  else if c.toNat < 256 then "-c\x7bnum:02x\x7d"
  else if c.toNat < 65536 then "-u\x7bnum:04x\x7d"
  else "-v\x7bnum:016x\x7d"

/-- Python `re.match('^[a-z]', result)`: nonempty and the first character is
a lowercase ASCII letter. -/
def startsWithLowerAlpha (s : String) : Bool :=
  match s.data with
  | [] => false
  | c :: _ => ('a' ≤ c) && (c ≤ 'z')

/-- Shallow embedding of `git_identifer` (`compiled_renderer.py`):
`re.sub('[^a-z0-9]', replacement, string)` followed by prefixing `x` when the
result does not start with a lowercase letter. -/
def git_identifer (s : String) : String :=
  let result := String.join (s.data.map (fun c =>
    if isLowerDigit c then String.singleton c else gitIdentReplacement c))
  if startsWithLowerAlpha result then result else "x" ++ result

/-- The target pattern `^[a-z][a-z0-9-]*$` from the spec, the docstring of
`git_identifer` and `test_git_identifier.py`. -/
def matchesIdentifierRe (s : String) : Bool :=
  match s.data with
  | [] => false
  | c :: rest =>
      (('a' ≤ c) && (c ≤ 'z')) && rest.all (fun d => isLowerDigit d || d = '-')

/-- C1: the encoder is *not* injective, contrary to the spec and to the
repository's own property test `test_git_identifers_different` (which even
pins `('0', 'x0')` as a regression pair).  The distinct inputs `"0"` and
`"x0"` collide because the synthetic `x` prefix is not escaped, and the
distinct inputs `"A"` and `"B"` collide because the width branches of the
replacement return literal (non-interpolated) format strings. -/
theorem git_identifer_not_injective :
    (git_identifer "0" = git_identifer "x0" ∧ ("0" : String) ≠ "x0") ∧
    (git_identifer "A" = git_identifer "B" ∧ ("A" : String) ≠ "B") := by
  decide

/-- C2: the encoder output does not always match `^[a-z][a-z0-9-]*$`,
contrary to the spec, the docstring and `test_git_identifer_valid`: the
escape token for a disallowed 8-bit character is the literal string
`-c{num:02x}` (the hex of the code point is never substituted), so
`git_identifer "A"` contains braces and a colon. -/
theorem git_identifer_pattern_violation :
    git_identifer "A" = "x-c\x7bnum:02x\x7d" ∧
    matchesIdentifierRe (git_identifer "A") = false := by
  decide

/-! ## Content fetch cache (`naucse/compiled_renderer.py`, `Fetcher`)

The git subprocesses are abstracted: `run_git('fetch', ...)` is counted in
`fetchCount` (one count per underlying git fetch command), `git config` is the
`config` association list (the store's durable configuration), and the
returned `GitPath` is represented by its ref string.  Wall-clock instants
(`datetime.datetime.now()` passed around as `now`) are integers counting
seconds; storing `now.isoformat()` and parsing it back with `fromisoformat`
is the identity, so `config` holds the instants directly. -/

/-- Lookup in an association list, with a default (Python `dict.get`). -/
def alistGet {β : Type} (m : List (String × β)) (k : String) (dflt : β) : β :=
  match m.find? (fun p => p.1 == k) with
  | some p => p.2
  | none => dflt

/-- Lookup in an association list (Python `dict.get` returning `None`). -/
def alistFind {β : Type} (m : List (String × β)) (k : String) : Option β :=
  (m.find? (fun p => p.1 == k)).map (fun p => p.2)

/-- Set a key in an association list (Python `dict.__setitem__`). -/
def alistSet {β : Type} (m : List (String × β)) (k : String) (v : β) :
    List (String × β) :=
  match m with
  | [] => [(k, v)]
  | (k', v') :: rest =>
      if k' == k then (k, v) :: rest else (k', v') :: alistSet rest k v

/-- Remove a key from an association list (Python `dict.pop`). -/
def alistRemove {β : Type} (m : List (String × β)) (k : String) :
    List (String × β) :=
  m.filter (fun p => !(p.1 == k))

/-- Add an element to a set represented as a duplicate-free list
(Python `set.add`). -/
def addElem (l : List String) (x : String) : List String :=
  if l.contains x then l else l ++ [x]

/-- Add all elements of `xs` (Python `set.update`). -/
def unionElems (l : List String) (xs : List String) : List String :=
  xs.foldl addElem l

/-- `CACHE_INTERVAL = datetime.timedelta(minutes=10)`, in seconds. -/
def CACHE_INTERVAL : Int := 600

/-- State of a `Fetcher` together with its local mirror store.
`registered` and `fetched` are the instance attributes
`registered_branches` / `fetched_branches` (maps url to a set of branches);
`config` is the durable git config of the store (`naucse.last_fetch.*`
variables); `fetchCount` counts the underlying `git fetch` commands issued
against the store. -/
structure FetcherState where
  registered : List (String × List String)
  fetched : List (String × List String)
  config : List (String × Int)
  fetchCount : Nat
deriving DecidableEq

/-- A freshly constructed `Fetcher` on a freshly initialized store. -/
def initialFetcher : FetcherState :=
  { registered := [], fetched := [], config := [], fetchCount := 0 }

/-- A new `Fetcher` instance (new process) opening the same durable store:
the git repository and its config persist, while `registered_branches` and
`fetched_branches` are in-memory instance attributes and start empty.
`fetchCount` keeps counting fetches ever issued against the store. -/
def restartFetcher (s : FetcherState) : FetcherState :=
  { s with registered := [], fetched := [] }

/-- `Fetcher.register_branch`. -/
def register_branch (s : FetcherState) (url branch : String) : FetcherState :=
  { s with registered :=
      alistSet s.registered url (addElem (alistGet s.registered url []) branch) }

/-- `Fetcher.get_ref`. -/
def get_ref (url branch : String) : String :=
  "refs/remotes/" ++ git_identifer url ++ "/" ++ branch

/-- `Fetcher.get_last_fetch_config_variable`. -/
def get_last_fetch_config_variable (url branch : String) : String :=
  "naucse.last_fetch." ++ git_identifer url ++ "." ++ branch

/-- `Fetcher.filter_branches_to_fetch`: drop branches already fetched in this
process lifetime, then keep a branch when it has no recorded last fetch or
its last fetch is more than `CACHE_INTERVAL` before `now`. -/
def filter_branches_to_fetch (s : FetcherState) (url : String)
    (branches : List String) (now : Int) : List String :=
  let branches := branches.filter
    (fun b => !((alistGet s.fetched url []).contains b))
  branches.filter (fun b =>
    match alistFind s.config (get_last_fetch_config_variable url b) with
    | none => true
    | some lastFetch => decide (lastFetch + CACHE_INTERVAL < now))

/-- `Fetcher.update_fetched_branches`: record `now` as the last fetch time of
each branch in the store's config. -/
def update_fetched_branches (s : FetcherState) (url : String)
    (branches : List String) (now : Int) : FetcherState :=
  let newConfig := branches.foldl
    (fun cfg b => alistSet cfg (get_last_fetch_config_variable url b) now)
    s.config
  { s with config := newConfig }

/-- `Fetcher.fetch`: under the global lock, register the branch, take over
every branch registered for this url, filter out fresh ones, and either skip
(the requested branch is fresh or already fetched in this process) or issue
one `git fetch` for the whole batch and record the fetch times.  Returns the
new state and the ref the returned `GitPath` points at. -/
def fetch (s : FetcherState) (url branch : String) (now : Int) :
    FetcherState × String :=
  let s := register_branch s url branch
  let toFetch := alistGet s.registered url []
  let s := { s with registered := alistRemove s.registered url }
  let toFetch := filter_branches_to_fetch s url toFetch now
  if toFetch.contains branch then
    let s := { s with fetchCount := s.fetchCount + 1 }
    let newFetched := alistSet s.fetched url (unionElems (alistGet s.fetched url []) toFetch)
    let s := { s with fetched := newFetched }
    let s := update_fetched_branches s url toFetch now
    (s, get_ref url branch)
  else
    let newFetched := alistSet s.fetched url (addElem (alistGet s.fetched url []) branch)
    let s := { s with fetched := newFetched }
    (s, get_ref url branch)

/-- C4, counterexample: on a single `Fetcher` instance, a branch fetched once
is never fetched again, because `fetched_branches` (in-process memory) filters
it out regardless of the 10-minute TTL.  Three calls at 0, 9 and 11 minutes
issue only one underlying git fetch; the claim demands a second fetch on the
third call. -/
theorem fetch_ttl_counterexample :
    ((fetch initialFetcher "https://example.com/repo" "main" 0).1.fetchCount = 1) ∧
    ((fetch (fetch initialFetcher "https://example.com/repo" "main" 0).1
        "https://example.com/repo" "main" 540).1.fetchCount = 1) ∧
    ((fetch (fetch (fetch initialFetcher "https://example.com/repo" "main" 0).1
        "https://example.com/repo" "main" 540).1
        "https://example.com/repo" "main" 660).1.fetchCount = 1) := by
  decide

/-- C4, amended: the 10-minute TTL governs calls that reopen the same durable
store with a fresh `Fetcher` instance (the TTL is persisted in the store's
git config, while `fetched_branches` is per-instance memory).  For any url,
branch and call times: a first fetch issues one git fetch; a second call
within `CACHE_INTERVAL` of the first is skipped as fresh; a third call more
than `CACHE_INTERVAL` after the first issues a second git fetch. -/
theorem fetch_ttl_restart (url branch : String) (t1 t2 t3 : Int)
    (ht2 : t2 ≤ t1 + CACHE_INTERVAL) (ht3 : t1 + CACHE_INTERVAL < t3) :
    ((fetch initialFetcher url branch t1).1.fetchCount = 1) ∧
    ((fetch (restartFetcher (fetch initialFetcher url branch t1).1)
        url branch t2).1.fetchCount = 1) ∧
    ((fetch (restartFetcher (fetch (restartFetcher
        (fetch initialFetcher url branch t1).1) url branch t2).1)
        url branch t3).1.fetchCount = 2) := by
  have hd2 : decide (t1 + CACHE_INTERVAL < t2) = false :=
    decide_eq_false (not_lt.mpr ht2)
  have hd3 : decide (t1 + CACHE_INTERVAL < t3) = true := decide_eq_true ht3
  simp [fetch, register_branch, initialFetcher, restartFetcher, alistGet,
    alistSet, alistFind, alistRemove, addElem, unionElems,
    filter_branches_to_fetch, update_fetched_branches, List.find?, hd2, hd3]

/-- Witness for `fetch_ttl_restart` at concrete inputs: calls at 0 s, 540 s
(9 min, skipped) and 660 s (11 min, fetched again). -/
theorem fetch_ttl_restart_witness :
    ((fetch initialFetcher "https://example.com/repo" "main" 0).1.fetchCount = 1) ∧
    ((fetch (restartFetcher (fetch initialFetcher "https://example.com/repo" "main" 0).1)
        "https://example.com/repo" "main" 540).1.fetchCount = 1) ∧
    ((fetch (restartFetcher (fetch (restartFetcher
        (fetch initialFetcher "https://example.com/repo" "main" 0).1)
        "https://example.com/repo" "main" 540).1)
        "https://example.com/repo" "main" 660).1.fetchCount = 2) :=
  fetch_ttl_restart "https://example.com/repo" "main" 0 540 660
    (by decide) (by decide)

/-! ## Session time resolution (`naucse/datetimes.py`, `fix_session_time`)

`datetime.date`, `datetime.time` and `datetime.datetime` values are embedded
structurally; a timezone (`tzinfo`) is an opaque label and `tzinfo=None` is
`Option.none`.  A session time endpoint is either a full datetime or a bare
time of day, mirroring what `SessionTimeConverter.load` can produce; the
`TypeError` branch of `fix_session_time` guards values outside this union and
is unrepresentable here.  The dict handed to `fix_session_time` is embedded
as a structure with the two keys `start`/`end`, which makes the
`set(session_time) != {'start', 'end'}` key check vacuous. -/

/-- A calendar date (`datetime.date`). -/
structure DateD where
  year : Nat
  month : Nat
  day : Nat
deriving DecidableEq

/-- A time of day with optional timezone (`datetime.time`, `timetz`). -/
structure TimeOfDay where
  hour : Nat
  minute : Nat
  tz : Option String
deriving DecidableEq

/-- A combined date and time with optional timezone (`datetime.datetime`). -/
structure DateTimeD where
  date : DateD
  hour : Nat
  minute : Nat
  tz : Option String
deriving DecidableEq

/-- One endpoint value inside the session-time dict: a full datetime or a
bare time of day. -/
inductive SessionTimeVal where
  | dt (d : DateTimeD)
  | tod (t : TimeOfDay)
deriving DecidableEq

/-- The session-time dict with its `start` and `end` keys (`end_` stands for
the `end` key). -/
structure SessionTimeDict where
  start : Option SessionTimeVal
  end_ : Option SessionTimeVal
deriving DecidableEq

/-- The course-level default time interval (`TimeIntervalConverter` output):
a `start` and an `end` time of day. -/
structure TimeInterval where
  start : TimeOfDay
  end_ : TimeOfDay
deriving DecidableEq

/-- The fully resolved result: start and end datetimes. -/
structure SessionTimes where
  start : DateTimeD
  end_ : DateTimeD
deriving DecidableEq

/-- `datetime.datetime.combine(date, time)`: keeps the time's `tzinfo`. -/
def combine (d : DateD) (t : TimeOfDay) : DateTimeD :=
  { date := d, hour := t.hour, minute := t.minute, tz := t.tz }

/-- The date/time combination steps of one endpoint of `fix_session_time`
(everything before the timezone fix): a full datetime is used unchanged; a
bare time needs `session_date`; an absent endpoint needs both `session_date`
and `default_time`; otherwise the overall result is `None`. -/
def combineSessionTime (time : Option SessionTimeVal) (session_date : Option DateD)
    (default_time_kind : Option TimeOfDay) : Option DateTimeD :=
  match time with
  | some (.dt d) => some d
  | some (.tod t) =>
      match session_date with
      | some d => some (combine d t)
      | none => none
  | none =>
      match session_date, default_time_kind with
      | some d, some t => some (combine d t)
      | _, _ => none

/-- The error text raised by `fix_session_time` for a concrete date/time with
no resolvable timezone; it names the endpoint (`kind`) and the session. -/
def tzErrorMessage (kind session_name : String) : String :=
  kind ++ " time of session " ++ session_name ++ " is missing "
    ++ "timezone information. Provide an offset or set "
    ++ "a timezone for the whole course."

/-- Fill in a missing timezone from a default (`time.replace(tzinfo=...)`). -/
def withDefaultTz (d : DateTimeD) (z : String) : DateTimeD :=
  match d.tz with
  | some _ => d
  | none => { d with tz := some z }

/-- The timezone fix of one endpoint of `fix_session_time`: keep an existing
timezone, else apply `default_timezone`, else fail naming endpoint and
session. -/
def applyDefaultTimezone (d : DateTimeD) (default_timezone : Option String)
    (session_name kind : String) : Except String DateTimeD :=
  match d.tz with
  | some _ => .ok d
  | none =>
      match default_timezone with
      | some z => .ok { d with tz := some z }
      | none => .error (tzErrorMessage kind session_name)

/-- One full iteration of the `for kind in 'start', 'end'` loop body of
`fix_session_time`. -/
def fixSessionTimeKind (time : Option SessionTimeVal) (session_date : Option DateD)
    (default_time_kind : Option TimeOfDay) (default_timezone : Option String)
    (session_name kind : String) : Except String (Option DateTimeD) :=
  match combineSessionTime time session_date default_time_kind with
  | none => .ok none
  | some d =>
      match applyDefaultTimezone d default_timezone session_name kind with
      | .ok d' => .ok (some d')
      | .error e => .error e

/-- Shallow embedding of `fix_session_time` (`datetimes.py`): process the
`start` endpoint, then the `end` endpoint; an endpoint resolving to `None`
makes the whole result `None` immediately; an endpoint error propagates. -/
def fix_session_time (session_time : Option SessionTimeDict)
    (session_date : Option DateD) (default_time : Option TimeInterval)
    (default_timezone : Option String) (session_name : String) :
    Except String (Option SessionTimes) :=
  let st := session_time.getD { start := none, end_ := none }
  match fixSessionTimeKind st.start session_date (default_time.map (fun i => i.start))
      default_timezone session_name "start" with
  | .error e => .error e
  | .ok none => .ok none
  | .ok (some s) =>
      match fixSessionTimeKind st.end_ session_date (default_time.map (fun i => i.end_))
          default_timezone session_name "end" with
      | .error e => .error e
      | .ok none => .ok none
      | .ok (some e) => .ok (some { start := s, end_ := e })

/-- C7: whenever both endpoints combine to concrete datetimes (the overall
result is not `None`), a given `defaultTimezone` is applied to any endpoint
still lacking one, and with no `defaultTimezone` the call fails with the
error that names the offending endpoint and the session; the timezone is
never silently defaulted. -/
theorem fix_session_time_timezone (st : SessionTimeDict) (sd : Option DateD)
    (dtime : Option TimeInterval) (name : String) (dstart dend : DateTimeD)
    (hs : combineSessionTime st.start sd (dtime.map (fun i => i.start)) = some dstart)
    (he : combineSessionTime st.end_ sd (dtime.map (fun i => i.end_)) = some dend) :
    (∀ z, fix_session_time (some st) sd dtime (some z) name =
      .ok (some { start := withDefaultTz dstart z, end_ := withDefaultTz dend z })) ∧
    ((dstart.tz = none ∨ dend.tz = none) →
      ∃ kind, (kind = "start" ∨ kind = "end") ∧
        fix_session_time (some st) sd dtime none name =
          .error (tzErrorMessage kind name)) := by
  constructor
  · intro z
    cases hds : dstart.tz <;> cases hde : dend.tz <;>
      simp [fix_session_time, fixSessionTimeKind, applyDefaultTimezone,
        withDefaultTz, hs, he, hds, hde]
  · intro hnone
    cases hds : dstart.tz with
    | none =>
        refine ⟨"start", Or.inl rfl, ?_⟩
        simp [fix_session_time, fixSessionTimeKind, applyDefaultTimezone, hs, hds]
    | some zs =>
        have hde : dend.tz = none := by
          rcases hnone with h | h
          · rw [hds] at h; exact absurd h (by simp)
          · exact h
        refine ⟨"end", Or.inr rfl, ?_⟩
        simp [fix_session_time, fixSessionTimeKind, applyDefaultTimezone,
          hs, he, hds, hde]

/-- Witness for `fix_session_time_timezone`: the spec's literal scenario, a
session `"x"` on 2020-12-28 from 18:00 to 19:10 with no timezone on either
endpoint; with default timezone `Europe/Prague` both endpoints get it, and
with none the call fails with the message naming the endpoint and `"x"`. -/
theorem fix_session_time_timezone_witness :
    (fix_session_time
        (some { start := some (.tod { hour := 18, minute := 0, tz := none }),
                end_ := some (.tod { hour := 19, minute := 10, tz := none }) })
        (some { year := 2020, month := 12, day := 28 }) none
        (some "Europe/Prague") "x" =
      .ok (some
        { start := { date := { year := 2020, month := 12, day := 28 },
                     hour := 18, minute := 0, tz := some "Europe/Prague" },
          end_ := { date := { year := 2020, month := 12, day := 28 },
                    hour := 19, minute := 10, tz := some "Europe/Prague" } })) ∧
    (∃ kind, (kind = "start" ∨ kind = "end") ∧
      fix_session_time
        (some { start := some (.tod { hour := 18, minute := 0, tz := none }),
                end_ := some (.tod { hour := 19, minute := 10, tz := none }) })
        (some { year := 2020, month := 12, day := 28 }) none none "x" =
      .error (tzErrorMessage kind "x")) := by
  have h := fix_session_time_timezone
    { start := some (.tod { hour := 18, minute := 0, tz := none }),
      end_ := some (.tod { hour := 19, minute := 10, tz := none }) }
    (some { year := 2020, month := 12, day := 28 }) none "x"
    { date := { year := 2020, month := 12, day := 28 },
      hour := 18, minute := 0, tz := none }
    { date := { year := 2020, month := 12, day := 28 },
      hour := 19, minute := 10, tz := none }
    rfl rfl
  exact ⟨h.1 "Europe/Prague", h.2 (Or.inl rfl)⟩

/-! ## Material mutual exclusivity (`naucse/models.py`, `Material`)

`Material.lesson_slug` and `Material.external_url` are optional string
fields (`external_url` holds the sanitized URL string).  The post-load hook
`_validate_lesson_slug` runs after the fields load (hook sequencing is the
converter engine's, spec section 4.1; `converters.py` itself is not part of
the sources here) and raises when `self.lesson_slug and self.external_url`
is truthy, i.e. when *both* fields are present and non-empty. -/

instance {ε α : Type} [DecidableEq ε] [DecidableEq α] : DecidableEq (Except ε α) :=
  fun x y =>
  match x, y with
  | .ok a, .ok b =>
      if h : a = b then isTrue (by rw [h]) else isFalse (by simp [h])
  | .error a, .error b =>
      if h : a = b then isTrue (by rw [h]) else isFalse (by simp [h])
  | .ok _, .error _ => isFalse (by simp)
  | .error _, .ok _ => isFalse (by simp)

/-- Python truthiness of an optional string. -/
def truthyStr : Option String → Bool
  | none => false
  | some s => !(s == "")

/-- The two fields of a loaded `Material` that the exclusivity invariant
talks about. -/
structure Material where
  lesson_slug : Option String
  external_url : Option String
deriving DecidableEq

/-- Loading a `Material`: field assignment followed by the
`_validate_lesson_slug` hook, which raises
`ValueError('external_url and lesson_slug are incompatible')` iff both
fields are truthy. -/
def loadMaterial (lesson_slug external_url : Option String) :
    Except String Material :=
  if truthyStr lesson_slug && truthyStr external_url then
    .error "external_url and lesson_slug are incompatible"
  else
    .ok { lesson_slug := lesson_slug, external_url := external_url }

/-- C9, counterexample: an input that *sets both* fields — `lesson_slug` to
the empty string and `external_url` to a URL — loads without error, because
the validator tests Python truthiness, not presence; the loaded Material
carries both fields. -/
theorem material_both_set_loads :
    loadMaterial (some "") (some "https://example.com") =
      .ok { lesson_slug := some "", external_url := some "https://example.com" } ∧
    (some "" : Option String).isSome = true ∧
    (some "https://example.com" : Option String).isSome = true := by
  decide

/-- C9, amended: loading fails iff both fields are *truthy* (present and
non-empty); consequently no Material that completes loading carries both a
non-empty lesson reference and a non-empty external URL. -/
theorem material_exclusive_truthy (ls eu : Option String) :
    (truthyStr ls = true → truthyStr eu = true →
      loadMaterial ls eu = .error "external_url and lesson_slug are incompatible") ∧
    (∀ m, loadMaterial ls eu = .ok m →
      ¬(truthyStr m.lesson_slug = true ∧ truthyStr m.external_url = true)) := by
  constructor
  · intro h1 h2
    simp [loadMaterial, h1, h2]
  · intro m hm
    rintro ⟨h1, h2⟩
    by_cases hc : (truthyStr ls && truthyStr eu) = true
    · simp [loadMaterial, hc] at hm
    · simp [loadMaterial, hc] at hm
      subst hm
      simp at h1 h2
      simp [h1, h2] at hc

/-- Witness for `material_exclusive_truthy`: both fields non-empty fails;
a lesson-only material loads and satisfies the amended invariant. -/
theorem material_exclusive_truthy_witness :
    (loadMaterial (some "lesson") (some "https://example.com") =
      .error "external_url and lesson_slug are incompatible") ∧
    ¬(truthyStr (Material.mk (some "lesson") none).lesson_slug = true ∧
      truthyStr (Material.mk (some "lesson") none).external_url = true) :=
  ⟨(material_exclusive_truthy (some "lesson") (some "https://example.com")).1
      (by decide) (by decide),
   (material_exclusive_truthy (some "lesson") none).2
      (Material.mk (some "lesson") none) (by decide)⟩

/-! ## Course lazy resolution and freeze (`naucse/models.py`)

The renderer (an external collaborator, spec section 6) is abstracted by
three functions: which slugs it can supply, which cross-references loading a
lesson registers (the `get_lesson_url` calls made while the rendered data
loads), and whether a lesson's content materializes when it is frozen.
Lessons themselves are represented by their slugs; Python sets become
duplicate-free lists in first-insertion order; a raised exception becomes a
`some` error paired with the state at the moment of the raise (Python
mutations before the raise persist). -/

/-- Abstract renderer for one course. -/
structure Renderer (α : Type) where
  available : α → Bool
  refs : α → List α
  canFreeze : α → Bool

/-- Errors raised by the course machinery.  `rendererNotFound` is the
renderer's own not-found error; `courseFrozen` is
`Exception('course is frozen')`; `missingFromRendered` is
`ValueError(f'{slug} missing from rendered lessons')`; `linkedTooDeeply` is
`ValueError(f'Lessons in course {slug} are linked too deeply')`;
`contentNotFound` is the `FileNotFoundError` surfacing from
`Lesson.freeze`; `keyError` is a dict `KeyError`. -/
inductive CErr (α : Type) where
  | courseFrozen
  | rendererNotFound (slug : α)
  | missingFromRendered (slug : α)
  | linkedTooDeeply
  | contentNotFound (slug : α)
  | keyError (slug : α)
deriving DecidableEq

/-- The mutable parts of a `Course` the claims are about: `_lessons` (keys of
the loaded-lessons dict, in insertion order), `_requested_lessons`,
`_frozen`, `_freezing`; plus two instrumentation fields: how many times
`renderer.get_lessons` was invoked and which lessons' content has been
materialized by `Lesson.freeze`. -/
structure CourseState (α : Type) where
  lessons : List α
  requested : List α
  frozen : Bool
  freezing : Bool
  rendererCalls : Nat
  materialized : List α
deriving DecidableEq

variable {α : Type} [DecidableEq α]

/-- Python `set.add` on a set represented as a duplicate-free list. -/
def addMem (l : List α) (x : α) : List α :=
  if x ∈ l then l else l ++ [x]

/-- Python `set.update`. -/
def addMems (l : List α) (xs : List α) : List α :=
  xs.foldl addMem l

/-- A fresh unfrozen course whose sessions' materials have requested the
given lesson slugs (requesting records intent only; it does not fetch). -/
def initialCourse (requested : List α) : CourseState α :=
  { lessons := [], requested := requested, frozen := false, freezing := false,
    rendererCalls := 0, materialized := [] }

/-- `renderer.get_lessons(slugs, vars)`: succeeds with the rendered lessons
(represented by their slugs) or raises the renderer's own not-found error
for a slug it cannot supply. -/
def Renderer.get_lessons (r : Renderer α) (slugs : List α) :
    Except (CErr α) (List α) :=
  match slugs.find? (fun x => !(r.available x)) with
  | some x => .error (.rendererNotFound x)
  | none => .ok slugs

/-- `Lesson.freeze`: force the lesson's pages and static files to
materialize; fails with the renderer's file-not-found error when the content
is missing. -/
def lessonFreeze (r : Renderer α) (s : CourseState α) (slug : α) :
    CourseState α × Option (CErr α) :=
  if r.canFreeze slug then
    ({ s with materialized := addMem s.materialized slug }, none)
  else
    (s, some (.contentNotFound slug))

/-- The `for lesson in self.lessons.values(): lesson.freeze()` loop of
`load_all_lessons`; stops at the first error, keeping prior mutations. -/
def freezeLessonList (r : Renderer α) :
    CourseState α → List α → CourseState α × Option (CErr α)
  | s, [] => (s, none)
  | s, l :: rest =>
      match lessonFreeze r s l with
      | (s', none) => freezeLessonList r s' rest
      | (s', some e) => (s', some e)

/-- The `for slug in slugs` loop of `Course.load_lessons`: look each slug up
in the rendered result (else `ValueError('... missing from rendered
lessons')`), insert it into `_lessons`, discard it from
`_requested_lessons`, and freeze it when the course is freezing. -/
def insertLessons (r : Renderer α) (newLessons : List α) :
    CourseState α → List α → CourseState α × Option (CErr α)
  | s, [] => (s, none)
  | s, slug :: rest =>
      if slug ∈ newLessons then
        let s := { s with lessons := s.lessons ++ [slug],
                          requested := s.requested.erase slug }
        if s.freezing then
          match lessonFreeze r s slug with
          | (s', none) => insertLessons r newLessons s' rest
          | (s', some e) => (s', some e)
        else insertLessons r newLessons s rest
      else (s, some (.missingFromRendered slug))

/-- `Course.load_lessons(slugs)`: refuse when frozen; drop already-loaded
slugs (`set(slugs) - set(self._lessons)`, determinized to first-occurrence
order); invoke the renderer once for the whole batch; register the
cross-references the loaded data makes to not-yet-loaded lessons (the
`get_lesson_url` calls during `load`); then run the insertion loop. -/
def load_lessons (r : Renderer α) (s : CourseState α) (slugs : List α) :
    CourseState α × Option (CErr α) :=
  if s.frozen then (s, some .courseFrozen)
  else
    let slugs := (addMems [] slugs).filter (fun x => decide (x ∉ s.lessons))
    let s := { s with rendererCalls := s.rendererCalls + 1 }
    match r.get_lessons slugs with
    | .error e => (s, some e)
    | .ok newLessons =>
        let newRefs := (newLessons.flatMap r.refs).filter
          (fun x => decide (x ∉ s.lessons))
        let s := { s with requested := addMems s.requested newRefs }
        insertLessons r newLessons s slugs

/-- `self._requested_lessons.difference_update(self._lessons)`. -/
def difference_update (s : CourseState α) : CourseState α :=
  { s with requested := s.requested.filter (fun x => decide (x ∉ s.lessons)) }

/-- The `while self._requested_lessons` drain loop of
`Course.load_all_lessons`, with the Python `link_depth` counter shifted by
one: Python decrements `link_depth` after each batch load and raises once it
goes negative, so an iteration entered here with `linkDepth = 0` performs
its batch load and then raises `linkedTooDeeply`. -/
def drainLessons (r : Renderer α) (s : CourseState α) (linkDepth : Nat) :
    CourseState α × Option (CErr α) :=
  if s.requested.isEmpty then (s, none)
  else
    if (difference_update s).requested.isEmpty then (difference_update s, none)
    else
      match load_lessons r (difference_update s) (difference_update s).requested with
      | (s', some e) => (s', some e)
      | (s', none) =>
          match linkDepth with
          | 0 => (s', some .linkedTooDeeply)
          | n + 1 => drainLessons r s' n

/-- `Course.load_all_lessons()`: no-op when frozen; when freezing, first
freeze every already-loaded lesson; then remove already-loaded slugs from
the requested set and drain it with the link-depth bound of 50. -/
def load_all_lessons (r : Renderer α) (s : CourseState α) :
    CourseState α × Option (CErr α) :=
  if s.frozen then (s, none)
  else
    match (if s.freezing then freezeLessonList r s s.lessons else (s, none)) with
    | (s', some e) => (s', some e)
    | (s', none) => drainLessons r (difference_update s') 50

/-- `Course.freeze()`: a no-op when already frozen or freezing; otherwise
set `_freezing`, load all lessons (freezing each), and only then set
`_frozen`.  An error propagates, leaving `_freezing` set and `_frozen`
unset. -/
def freeze (r : Renderer α) (s : CourseState α) :
    CourseState α × Option (CErr α) :=
  if s.frozen || s.freezing then (s, none)
  else
    match load_all_lessons r { s with freezing := true } with
    | (s', some e) => (s', some e)
    | (s', none) => ({ s' with frozen := true }, none)

/-- `_LessonsDict.__getitem__`: return the lesson when present, else load
exactly that slug synchronously and return it from the updated dict. -/
def lessonsGetItem (r : Renderer α) (s : CourseState α) (key : α) :
    CourseState α × Except (CErr α) α :=
  if key ∈ s.lessons then (s, .ok key)
  else
    match load_lessons r s [key] with
    | (s', some e) => (s', .error e)
    | (s', none) =>
        if key ∈ s'.lessons then (s', .ok key)
        else (s', .error (.keyError key))

/-- `_LessonsDict.__iter__`: freeze the course, then enumerate `_lessons`. -/
def lessonsIter (r : Renderer α) (s : CourseState α) :
    CourseState α × Except (CErr α) (List α) :=
  match freeze r s with
  | (s', none) => (s', .ok s'.lessons)
  | (s', some e) => (s', .error e)

/-- `_LessonsDict.__len__`: freeze the course, then count `_lessons`. -/
def lessonsLen (r : Renderer α) (s : CourseState α) :
    CourseState α × Except (CErr α) Nat :=
  match freeze r s with
  | (s', none) => (s', .ok s'.lessons.length)
  | (s', some e) => (s', .error e)

/-- A fully-available course whose lesson `i` cross-references lesson `i+1`
up to lesson `n`: a chain of `n` sequential cross-references. -/
def chainRenderer (n : Nat) : Renderer Nat :=
  { available := fun _ => true,
    refs := fun i => if i < n then [i + 1] else [],
    canFreeze := fun _ => true }

lemma lessonFreeze_flags (r : Renderer α) (s : CourseState α) (l : α) :
    ((lessonFreeze r s l).1.freezing = s.freezing) ∧
    ((lessonFreeze r s l).1.frozen = s.frozen) ∧
    ((lessonFreeze r s l).1.rendererCalls = s.rendererCalls) := by
  unfold lessonFreeze
  split <;> simp

lemma freezeLessonList_flags (r : Renderer α) :
    ∀ (ls : List α) (s : CourseState α),
      ((freezeLessonList r s ls).1.freezing = s.freezing) ∧
      ((freezeLessonList r s ls).1.frozen = s.frozen) ∧
      ((freezeLessonList r s ls).1.rendererCalls = s.rendererCalls) := by
  intro ls
  induction ls with
  | nil => intro s; simp [freezeLessonList]
  | cons l rest ih =>
      intro s
      have hfl := lessonFreeze_flags r s l
      simp only [freezeLessonList]
      rcases hf : lessonFreeze r s l with ⟨s₁, oe⟩
      rw [hf] at hfl
      cases oe with
      | none =>
          exact ⟨(ih s₁).1.trans hfl.1, (ih s₁).2.1.trans hfl.2.1,
            (ih s₁).2.2.trans hfl.2.2⟩
      | some e => exact hfl

lemma insertLessons_flags (r : Renderer α) (nl : List α) :
    ∀ (ls : List α) (s : CourseState α),
      ((insertLessons r nl s ls).1.freezing = s.freezing) ∧
      ((insertLessons r nl s ls).1.frozen = s.frozen) ∧
      ((insertLessons r nl s ls).1.rendererCalls = s.rendererCalls) := by
  intro ls
  induction ls with
  | nil => intro s; simp [insertLessons]
  | cons slug rest ih =>
      intro s
      simp only [insertLessons]
      by_cases hmem : slug ∈ nl
      · rw [if_pos hmem]
        dsimp only
        by_cases hfz : s.freezing = true
        · rw [if_pos hfz]
          rcases hf : lessonFreeze r
              { s with lessons := s.lessons ++ [slug],
                       requested := s.requested.erase slug } slug with ⟨s₁, oe⟩
          have hfl := lessonFreeze_flags r
            { s with lessons := s.lessons ++ [slug],
                     requested := s.requested.erase slug } slug
          rw [hf] at hfl
          cases oe with
          | none =>
              exact ⟨(ih s₁).1.trans hfl.1, (ih s₁).2.1.trans hfl.2.1,
                (ih s₁).2.2.trans hfl.2.2⟩
          | some e => exact hfl
        · rw [if_neg hfz]
          exact ih _
      · rw [if_neg hmem]
        exact ⟨rfl, rfl, rfl⟩

lemma load_lessons_flags (r : Renderer α) (s : CourseState α) (slugs : List α) :
    ((load_lessons r s slugs).1.freezing = s.freezing) ∧
    ((load_lessons r s slugs).1.frozen = s.frozen) := by
  unfold load_lessons
  by_cases hfz : s.frozen = true
  · rw [if_pos hfz]; exact ⟨rfl, rfl⟩
  · rw [if_neg hfz]
    dsimp only
    rcases hg : Renderer.get_lessons r
        ((addMems [] slugs).filter fun x => decide (x ∉ s.lessons)) with e | nl
    · exact ⟨rfl, rfl⟩
    · exact ⟨(insertLessons_flags r nl _ _).1, (insertLessons_flags r nl _ _).2.1⟩

lemma load_lessons_calls (r : Renderer α) (s : CourseState α) (slugs : List α)
    (h : s.frozen = false) :
    (load_lessons r s slugs).1.rendererCalls = s.rendererCalls + 1 := by
  unfold load_lessons
  rw [if_neg (by rw [h]; exact Bool.false_ne_true)]
  dsimp only
  rcases hg : Renderer.get_lessons r
      ((addMems [] slugs).filter fun x => decide (x ∉ s.lessons)) with e | nl
  · rfl
  · exact (insertLessons_flags r nl _ _).2.2

lemma drainLessons_flags (r : Renderer α) :
    ∀ (d : Nat) (s s' : CourseState α) (oe : Option (CErr α)),
      drainLessons r s d = (s', oe) →
      s'.freezing = s.freezing ∧ s'.frozen = s.frozen := by
  intro d
  induction d with
  | zero =>
      intro s s' oe h
      rw [drainLessons] at h
      split at h
      · cases h; exact ⟨rfl, rfl⟩
      · split at h
        · cases h; exact ⟨rfl, rfl⟩
        · rcases hl : load_lessons r (difference_update s) (difference_update s).requested
              with ⟨s₁, oe₁⟩
          have hfl := load_lessons_flags r (difference_update s) (difference_update s).requested
          rw [hl] at h hfl
          cases oe₁ with
          | some e => cases h; exact hfl
          | none => cases h; exact hfl
  | succ n ih =>
      intro s s' oe h
      rw [drainLessons] at h
      split at h
      · cases h; exact ⟨rfl, rfl⟩
      · split at h
        · cases h; exact ⟨rfl, rfl⟩
        · rcases hl : load_lessons r (difference_update s) (difference_update s).requested
              with ⟨s₁, oe₁⟩
          have hfl := load_lessons_flags r (difference_update s) (difference_update s).requested
          rw [hl] at h hfl
          cases oe₁ with
          | some e => cases h; exact hfl
          | none =>
              have := ih s₁ s' oe h
              exact ⟨this.1.trans hfl.1, this.2.trans hfl.2⟩

lemma drainLessons_succ (r : Renderer α) :
    ∀ (d : Nat) (s s' : CourseState α),
      drainLessons r s d = (s', none) → drainLessons r s (d + 1) = (s', none) := by
  intro d
  induction d with
  | zero =>
      intro s s' h
      rw [drainLessons] at h ⊢
      split at h
      · next h1 => rw [if_pos h1]; exact h
      · next h1 =>
          rw [if_neg h1]
          split at h
          · next h2 => rw [if_pos h2]; exact h
          · next h2 =>
              rw [if_neg h2]
              rcases hl : load_lessons r (difference_update s)
                  (difference_update s).requested with ⟨s₁, oe₁⟩
              rw [hl] at h
              cases oe₁ with
              | some e => exact h
              | none => simp at h
  | succ n ih =>
      intro s s' h
      rw [drainLessons] at h ⊢
      split at h
      · next h1 => rw [if_pos h1]; exact h
      · next h1 =>
          rw [if_neg h1]
          split at h
          · next h2 => rw [if_pos h2]; exact h
          · next h2 =>
              rw [if_neg h2]
              rcases hl : load_lessons r (difference_update s)
                  (difference_update s).requested with ⟨s₁, oe₁⟩
              rw [hl] at h
              cases oe₁ with
              | some e => exact h
              | none => exact ih s₁ s' h

lemma drainLessons_mono (r : Renderer α) {d d' : Nat} (hdd : d ≤ d')
    {s s' : CourseState α} (h : drainLessons r s d = (s', none)) :
    drainLessons r s d' = (s', none) := by
  induction hdd with
  | refl => exact h
  | step _ ih => exact drainLessons_succ r _ _ _ ih

lemma drainLessons_requested (r : Renderer α) :
    ∀ (d : Nat) (s s' : CourseState α),
      drainLessons r s d = (s', none) → s'.requested = [] := by
  intro d
  induction d with
  | zero =>
      intro s s' h
      rw [drainLessons] at h
      split at h
      · next h1 => cases h; exact List.isEmpty_iff.mp h1
      · split at h
        · next h2 => cases h; exact List.isEmpty_iff.mp h2
        · rcases hl : load_lessons r (difference_update s)
              (difference_update s).requested with ⟨s₁, oe₁⟩
          rw [hl] at h
          cases oe₁ with
          | some e => simp at h
          | none => simp at h
  | succ n ih =>
      intro s s' h
      rw [drainLessons] at h
      split at h
      · next h1 => cases h; exact List.isEmpty_iff.mp h1
      · split at h
        · next h2 => cases h; exact List.isEmpty_iff.mp h2
        · rcases hl : load_lessons r (difference_update s)
              (difference_update s).requested with ⟨s₁, oe₁⟩
          rw [hl] at h
          cases oe₁ with
          | some e => simp at h
          | none => exact ih s₁ s' h

lemma load_all_lessons_flags (r : Renderer α) (s s' : CourseState α)
    (oe : Option (CErr α)) (h : load_all_lessons r s = (s', oe)) :
    s'.freezing = s.freezing ∧ s'.frozen = s.frozen := by
  unfold load_all_lessons at h
  by_cases hfz : s.frozen = true
  · rw [if_pos hfz] at h; cases h; exact ⟨rfl, rfl⟩
  · rw [if_neg hfz] at h
    by_cases hfr : s.freezing = true
    · rw [if_pos hfr] at h
      rcases hfl : freezeLessonList r s s.lessons with ⟨s₁, oe₁⟩
      have hffl := freezeLessonList_flags r s.lessons s
      rw [hfl] at h hffl
      cases oe₁ with
      | some e => cases h; exact ⟨hffl.1, hffl.2.1⟩
      | none =>
          have hd := drainLessons_flags r 50 (difference_update s₁) s' oe h
          exact ⟨hd.1.trans hffl.1, hd.2.trans hffl.2.1⟩
    · rw [if_neg hfr] at h
      exact drainLessons_flags r 50 (difference_update s) s' oe h

lemma load_all_lessons_requested (r : Renderer α) (s s' : CourseState α)
    (hfz : s.frozen = false) (h : load_all_lessons r s = (s', none)) :
    s'.requested = [] := by
  unfold load_all_lessons at h
  rw [if_neg (by simp [hfz])] at h
  by_cases hfr : s.freezing = true
  · rw [if_pos hfr] at h
    rcases hfl : freezeLessonList r s s.lessons with ⟨s₁, oe₁⟩
    rw [hfl] at h
    cases oe₁ with
    | some e => simp at h
    | none => exact drainLessons_requested r 50 _ _ h
  · rw [if_neg hfr] at h
    exact drainLessons_requested r 50 _ _ h

lemma freeze_success (r : Renderer α) (s s' : CourseState α)
    (h1 : s.frozen = false) (h2 : s.freezing = false)
    (hf : freeze r s = (s', none)) :
    s'.frozen = true ∧ s'.requested = [] := by
  unfold freeze at hf
  rw [if_neg (by simp [h1, h2])] at hf
  rcases hl : load_all_lessons r { s with freezing := true } with ⟨s₁, oe₁⟩
  rw [hl] at hf
  cases oe₁ with
  | some e => simp at hf
  | none =>
      have hreq : s₁.requested = [] :=
        load_all_lessons_requested r { s with freezing := true } s₁ h1 hl
      injection hf with hh _
      subst hh
      exact ⟨rfl, hreq⟩

/-- C5: `freeze()` is idempotent and re-entrancy-safe.  A second `freeze`
after a completed one returns the state unchanged (same lessons, same
materialized content, same renderer call count, so the renderer is not
invoked again), and calling `freeze` while the course is already `Freezing`
is a no-op. -/
theorem freeze_idempotent (r : Renderer α) (s s' : CourseState α) :
    (freeze r s = (s', none) → freeze r s' = (s', none)) ∧
    (s.freezing = true → freeze r s = (s, none)) := by
  constructor
  · intro h
    unfold freeze at h
    by_cases hc : (s.frozen || s.freezing) = true
    · rw [if_pos hc] at h
      injection h with h1 _
      subst h1
      unfold freeze
      rw [if_pos hc]
    · rw [if_neg hc] at h
      rcases hl : load_all_lessons r { s with freezing := true } with ⟨s₁, oe₁⟩
      rw [hl] at h
      cases oe₁ with
      | some e => simp at h
      | none =>
          injection h with h1 _
          subst h1
          unfold freeze
          rw [if_pos (by simp)]
  · intro h
    unfold freeze
    rw [if_pos (by rw [h]; simp)]

/-- Witness for `freeze_idempotent`: freezing a one-lesson course succeeds,
a second `freeze` leaves the resulting state (including the renderer call
count) untouched, and `freeze` on a course already in the `Freezing` state
is a no-op. -/
theorem freeze_idempotent_witness :
    (freeze (chainRenderer 0) (initialCourse [0]) =
      ({ lessons := [0], requested := [], frozen := true, freezing := true,
         rendererCalls := 1, materialized := [0] }, none)) ∧
    (freeze (chainRenderer 0)
        { lessons := [0], requested := [], frozen := true, freezing := true,
          rendererCalls := 1, materialized := [0] } =
      ({ lessons := [0], requested := [], frozen := true, freezing := true,
         rendererCalls := 1, materialized := [0] }, none)) ∧
    (freeze (chainRenderer 0)
        { lessons := [], requested := [], frozen := false, freezing := true,
          rendererCalls := 0, materialized := ([] : List Nat) } =
      ({ lessons := [], requested := [], frozen := false, freezing := true,
         rendererCalls := 0, materialized := [] }, none)) :=
  ⟨by decide,
   (freeze_idempotent (chainRenderer 0) (initialCourse [0])
      { lessons := [0], requested := [], frozen := true, freezing := true,
        rendererCalls := 1, materialized := [0] }).1 (by decide),
   (freeze_idempotent (chainRenderer 0)
      { lessons := [], requested := [], frozen := false, freezing := true,
        rendererCalls := 0, materialized := ([] : List Nat) }
      (initialCourse [])).2 rfl⟩

/-- C6: an error raised while `freeze()` materializes content propagates and
leaves the course in the `Freezing` state: `_freezing` remains set and
`_frozen` is not set, so a caller can detect the failed freeze. -/
theorem freeze_error_leaves_freezing (r : Renderer α) (s s' : CourseState α)
    (e : CErr α) (h : freeze r s = (s', some e)) :
    s'.freezing = true ∧ s'.frozen = false := by
  unfold freeze at h
  by_cases hc : (s.frozen || s.freezing) = true
  · rw [if_pos hc] at h; simp at h
  · rw [if_neg hc] at h
    simp only [Bool.or_eq_true, not_or, Bool.not_eq_true] at hc
    rcases hl : load_all_lessons r { s with freezing := true } with ⟨s₁, oe₁⟩
    have hfl := load_all_lessons_flags r { s with freezing := true } s₁ oe₁ hl
    rw [hl] at h
    cases oe₁ with
    | none => simp at h
    | some e₁ =>
        injection h with h1 _
        subst h1
        exact ⟨hfl.1.trans rfl, hfl.2.trans hc.1⟩

/-- Witness for `freeze_error_leaves_freezing`: a course whose single
requested lesson the renderer cannot supply; `freeze` fails with the
renderer's error and leaves `freezing = true`, `frozen = false`. -/
theorem freeze_error_leaves_freezing_witness :
    (freeze
        ({ available := fun _ => false, refs := fun _ => [],
           canFreeze := fun _ => true } : Renderer Nat)
        (initialCourse [0]) =
      ({ lessons := [], requested := [0], frozen := false, freezing := true,
         rendererCalls := 1, materialized := [] }, some (.rendererNotFound 0))) ∧
    ({ lessons := [], requested := [0], frozen := false, freezing := true,
       rendererCalls := 1,
       materialized := ([] : List Nat) } : CourseState Nat).freezing = true ∧
    ({ lessons := [], requested := [0], frozen := false, freezing := true,
       rendererCalls := 1,
       materialized := ([] : List Nat) } : CourseState Nat).frozen = false :=
  ⟨by decide,
   (freeze_error_leaves_freezing
      ({ available := fun _ => false, refs := fun _ => [],
         canFreeze := fun _ => true } : Renderer Nat)
      (initialCourse [0])
      { lessons := [], requested := [0], frozen := false, freezing := true,
        rendererCalls := 1, materialized := [] }
      (CErr.rendererNotFound 0) (by decide)).1,
   (freeze_error_leaves_freezing
      ({ available := fun _ => false, refs := fun _ => [],
         canFreeze := fun _ => true } : Renderer Nat)
      (initialCourse [0])
      { lessons := [], requested := [0], frozen := false, freezing := true,
        rendererCalls := 1, materialized := [] }
      (CErr.rendererNotFound 0) (by decide)).2⟩

/-- C10: iterating `course.lessons` or taking its length on an unfrozen,
not-yet-freezing course freezes the course as a side effect: both operations
call `freeze()`, and when the freeze succeeds they enumerate the post-freeze
lessons of a course that is now `Frozen` with an empty requested set. -/
theorem lessons_iter_len_freeze (r : Renderer α) (s s' : CourseState α)
    (h1 : s.frozen = false) (h2 : s.freezing = false)
    (hf : freeze r s = (s', none)) :
    lessonsIter r s = (s', .ok s'.lessons) ∧
    lessonsLen r s = (s', .ok s'.lessons.length) ∧
    s'.frozen = true ∧ s'.requested = [] := by
  refine ⟨?_, ?_, (freeze_success r s s' h1 h2 hf).1,
    (freeze_success r s s' h1 h2 hf).2⟩
  · unfold lessonsIter
    rw [hf]
  · unfold lessonsLen
    rw [hf]

/-- Witness for `lessons_iter_len_freeze`: a one-lesson course; both
iteration and length freeze it fully and enumerate the frozen lessons. -/
theorem lessons_iter_len_freeze_witness :
    (lessonsIter (chainRenderer 0) (initialCourse [0]) =
      ({ lessons := [0], requested := [], frozen := true, freezing := true,
         rendererCalls := 1, materialized := [0] }, .ok [0])) ∧
    (lessonsLen (chainRenderer 0) (initialCourse [0]) =
      ({ lessons := [0], requested := [], frozen := true, freezing := true,
         rendererCalls := 1, materialized := [0] }, .ok 1)) :=
  ⟨(lessons_iter_len_freeze (chainRenderer 0) (initialCourse [0])
      { lessons := [0], requested := [], frozen := true, freezing := true,
        rendererCalls := 1, materialized := [0] }
      rfl rfl (by decide)).1,
   (lessons_iter_len_freeze (chainRenderer 0) (initialCourse [0])
      { lessons := [0], requested := [], frozen := true, freezing := true,
        rendererCalls := 1, materialized := [0] }
      rfl rfl (by decide)).2.1⟩


/-- Intermediate state of a chain course after lessons `0 .. k-1` have been
loaded and `req` is still requested. -/
def chainState (k : Nat) (req : List Nat) : CourseState Nat :=
  { lessons := List.range k, requested := req, frozen := false,
    freezing := false, rendererCalls := k, materialized := [] }

lemma chain_load_step (n k : Nat) :
    load_lessons (chainRenderer n) (chainState k [k]) [k] =
      (chainState (k + 1) (if k < n then [k + 1] else []), none) := by
  have h1 : k ∉ List.range k := by simp
  have h2 : k + 1 ∉ List.range k := by simp
  have h3 : ¬(k + 1 = k) := by omega
  unfold load_lessons
  rw [if_neg (by simp [chainState])]
  by_cases hkn : k < n
  · simp [chainState, chainRenderer, Renderer.get_lessons, addMems, addMem,
      insertLessons, List.find?, h1, h2, h3, hkn, List.range_succ]
  · simp [chainState, chainRenderer, Renderer.get_lessons, addMems, addMem,
      insertLessons, List.find?, h1, h2, h3, hkn, List.range_succ]

lemma chain_drain_ok (n : Nat) :
    ∀ (d k : Nat), k ≤ n → n - k < d →
      drainLessons (chainRenderer n) (chainState k [k]) d =
        (chainState (n + 1) [], none) := by
  intro d
  induction d with
  | zero => intro k hk hd; omega
  | succ m ih =>
      intro k hk hd
      have hdu : difference_update (chainState k [k]) = chainState k [k] := by
        simp [difference_update, chainState]
      rw [drainLessons]
      rw [if_neg (by simp [chainState])]
      rw [hdu]
      rw [if_neg (by simp [chainState])]
      rw [show (chainState k [k]).requested = [k] from rfl]
      rw [chain_load_step n k]
      by_cases hkn : k < n
      · rw [if_pos hkn]
        show drainLessons (chainRenderer n) (chainState (k + 1) [k + 1]) m =
          (chainState (n + 1) [], none)
        exact ih (k + 1) (by omega) (by omega)
      · have hkeq : k = n := by omega
        subst hkeq
        rw [if_neg hkn]
        show drainLessons (chainRenderer k) (chainState (k + 1) []) m =
          (chainState (k + 1) [], none)
        rw [drainLessons]
        rw [if_pos (by simp [chainState])]

lemma chain_drain_deep (n : Nat) :
    ∀ (d k : Nat), k + d ≤ n →
      (drainLessons (chainRenderer n) (chainState k [k]) d).2 =
        some CErr.linkedTooDeeply := by
  intro d
  induction d with
  | zero =>
      intro k hk
      have hdu : difference_update (chainState k [k]) = chainState k [k] := by
        simp [difference_update, chainState]
      rw [drainLessons]
      rw [if_neg (by simp [chainState])]
      rw [hdu]
      rw [if_neg (by simp [chainState])]
      rw [show (chainState k [k]).requested = [k] from rfl]
      rw [chain_load_step n k]
  | succ m ih =>
      intro k hk
      have hdu : difference_update (chainState k [k]) = chainState k [k] := by
        simp [difference_update, chainState]
      rw [drainLessons]
      rw [if_neg (by simp [chainState])]
      rw [hdu]
      rw [if_neg (by simp [chainState])]
      rw [show (chainState k [k]).requested = [k] from rfl]
      rw [chain_load_step n k]
      have hkn : k < n := by omega
      rw [if_pos hkn]
      show (drainLessons (chainRenderer n) (chainState (k + 1) [k + 1]) m).2 =
        some CErr.linkedTooDeeply
      exact ih (k + 1) (by omega)


/-- C3: `load_all_lessons` drains the requested set by repeated batch loads
under the link-depth bound of 50.  A chain of 49 sequential cross-references
(lessons 0..49) resolves every lesson and terminates normally after 50 batch
loads; a chain of 51 raises the explicit `linked too deeply` error instead
of looping; and in general a drain that finishes within some depth finishes
identically under any larger depth bound. -/
theorem load_all_lessons_depth_bound :
    (load_all_lessons (chainRenderer 49) (initialCourse [0]) =
      (chainState 50 [], none)) ∧
    ((chainState 50 []).lessons = List.range 50) ∧
    ((load_all_lessons (chainRenderer 51) (initialCourse [0])).2 =
      some CErr.linkedTooDeeply) ∧
    (∀ (β : Type) (_binst : DecidableEq β) (r : Renderer β)
        (s s' : CourseState β) (d d' : Nat), d ≤ d' →
      drainLessons r s d = (s', none) → drainLessons r s d' = (s', none)) := by
  have hdu : difference_update (initialCourse [0]) = chainState 0 [0] := by
    simp [difference_update, initialCourse, chainState]
  have h0 : ∀ n : Nat, load_all_lessons (chainRenderer n) (initialCourse [0]) =
      drainLessons (chainRenderer n) (chainState 0 [0]) 50 := by
    intro n
    unfold load_all_lessons
    rw [if_neg (by simp [initialCourse])]
    rw [if_neg (by simp [initialCourse])]
    rw [← hdu]
  refine ⟨?_, rfl, ?_, ?_⟩
  · rw [h0 49]
    exact chain_drain_ok 49 50 0 (by omega) (by omega)
  · rw [h0 51]
    exact chain_drain_deep 51 50 0 (by omega)
  · intro β _binst r s s' d d' hdd h
    exact drainLessons_mono r hdd h

/-- Witness for `load_all_lessons_depth_bound`: its depth-monotonicity part
applied at a concrete drained course. -/
theorem load_all_lessons_depth_bound_witness :
    drainLessons (chainRenderer 0) (initialCourse ([] : List Nat)) 1 =
      (initialCourse [], none) :=
  load_all_lessons_depth_bound.2.2.2 Nat instDecidableEqNat (chainRenderer 0)
    (initialCourse []) (initialCourse []) 0 1 (by omega) (by decide)


/-- C8: reading `course.lessons[slug]` for an absent slug on an unfrozen
course performs one immediate synchronous single-slug resolution: exactly
one renderer call is made; when the renderer supplies the slug (course not
freezing), the loaded lesson is inserted into the mapping and returned; when
the renderer raises its not-found error, the lookup fails with that same
error, propagated unchanged. -/
theorem lessons_getitem_spec (r : Renderer α) (s : CourseState α) (key : α)
    (hfz : s.frozen = false) (hmem : key ∉ s.lessons) :
    ((lessonsGetItem r s key).1.rendererCalls = s.rendererCalls + 1) ∧
    (s.freezing = false → r.available key = true →
      (lessonsGetItem r s key).2 = .ok key ∧
      key ∈ (lessonsGetItem r s key).1.lessons) ∧
    (∀ e, Renderer.get_lessons r [key] = .error e →
      (lessonsGetItem r s key).2 = .error e) := by
  have hslugs : (addMems [] [key]).filter (fun x => decide (x ∉ s.lessons)) = [key] := by
    simp [addMems, addMem, hmem]
  refine ⟨?_, ?_, ?_⟩
  · have hres1 : (lessonsGetItem r s key).1 = (load_lessons r s [key]).1 := by
      unfold lessonsGetItem
      rw [if_neg hmem]
      rcases hl : load_lessons r s [key] with ⟨s₁, oe⟩
      cases oe with
      | some e => rfl
      | none =>
          dsimp only
          split <;> rfl
    rw [hres1]
    exact load_lessons_calls r s [key] hfz
  · intro hfr hav
    have hgl : Renderer.get_lessons r [key] = .ok [key] := by
      simp [Renderer.get_lessons, List.find?, hav]
    have hload : load_lessons r s [key] =
        ({ lessons := s.lessons ++ [key],
           requested := (addMems s.requested
             (([key].flatMap r.refs).filter fun x => decide (x ∉ s.lessons))).erase key,
           frozen := s.frozen, freezing := s.freezing,
           rendererCalls := s.rendererCalls + 1,
           materialized := s.materialized }, none) := by
      unfold load_lessons
      rw [if_neg (by simp [hfz])]
      dsimp only
      rw [hslugs, hgl]
      dsimp only
      unfold insertLessons
      rw [if_pos (List.mem_singleton_self key)]
      dsimp only
      rw [if_neg (by simp [hfr])]
      rfl
    unfold lessonsGetItem
    rw [if_neg hmem, hload]
    dsimp only
    rw [if_pos (show key ∈ s.lessons ++ [key] by simp)]
    exact ⟨rfl, by simp⟩
  · intro e he
    have hload : load_lessons r s [key] =
        ({ s with rendererCalls := s.rendererCalls + 1 }, some e) := by
      unfold load_lessons
      rw [if_neg (by simp [hfz])]
      dsimp only
      rw [hslugs, he]
    unfold lessonsGetItem
    rw [if_neg hmem, hload]

/-- Witness for `lessons_getitem_spec`: on an empty unfrozen course, looking
up lesson 0 with an available renderer returns it after exactly one renderer
call; with a renderer that cannot supply it, the renderer's own not-found
error comes back unchanged. -/
theorem lessons_getitem_spec_witness :
    ((lessonsGetItem (chainRenderer 0) (initialCourse []) 0).1.rendererCalls = 1) ∧
    ((lessonsGetItem (chainRenderer 0) (initialCourse []) 0).2 = .ok 0) ∧
    (0 ∈ (lessonsGetItem (chainRenderer 0) (initialCourse []) 0).1.lessons) ∧
    ((lessonsGetItem
        ({ available := fun _ => false, refs := fun _ => [],
           canFreeze := fun _ => true } : Renderer Nat)
        (initialCourse []) 0).2 = .error (CErr.rendererNotFound 0)) := by
  have h1 := lessons_getitem_spec (chainRenderer 0) (initialCourse []) 0 rfl
    (by simp [initialCourse])
  have h2 := lessons_getitem_spec
    ({ available := fun _ => false, refs := fun _ => [],
       canFreeze := fun _ => true } : Renderer Nat) (initialCourse []) 0 rfl
    (by simp [initialCourse])
  exact ⟨h1.1, (h1.2.1 rfl rfl).1, (h1.2.1 rfl rfl).2,
    h2.2.2 (CErr.rendererNotFound 0) (by decide)⟩

end Naucse
